import Mathlib

/-!
Shallow embedding of `src/main.py` (csv_json_validator).

The program has two layers:

* a normalizer/validator (`preprocess_json_string`, `is_valid_json`) that
  tries to read a field value as a Python literal (via `ast.literal_eval`),
  re-serializes it with `json.dumps`, and re-parses it with `json.loads`;
* a row driver (`validate_csv_json_field`) that walks CSV rows, classifies
  one field per row and prints diagnostics plus a summary line.

The Python standard-library calls (`ast.literal_eval`, `json.dumps`,
`json.loads`, `csv.DictReader`) are modelled by executable Lean functions
restricted to the fragment this program exercises: strings (single- or
double-quoted, with the common backslash escapes), decimal integers,
booleans, `None`/`null`, lists/arrays and dicts/objects.  Float literals,
`\uXXXX` escapes, tuples, sets, bytes and the `TypeError` paths of
`json.dumps` are outside the modelled fragment; no claim below depends on
them.  Error TEXTS of the standard library are modelled, not copied: the
claims only inspect the prefixes added by `main.py` itself.
-/

/-- Values producible by Python's `ast.literal_eval` in the modelled
fragment (`None`, booleans, integers, strings, lists, dicts). -/
inductive PyVal where
  | none_ : PyVal
  | bool : Bool → PyVal
  | int : Int → PyVal
  | str : String → PyVal
  | list : List PyVal → PyVal
  | dict : List (PyVal × PyVal) → PyVal

/-- Values of the strict JSON data model (model of what `json.loads`
returns), in the same fragment. -/
inductive JsonVal where
  | null : JsonVal
  | bool : Bool → JsonVal
  | int : Int → JsonVal
  | str : String → JsonVal
  | arr : List JsonVal → JsonVal
  | obj : List (String × JsonVal) → JsonVal

/-- The four whitespace characters skipped by both Python's tokenizer and
the JSON grammar. -/
def isWsChar (c : Char) : Bool :=
  c = ' ' || c = '\t' || c = '\n' || c = '\r'

/-- Drop leading whitespace from a character stream. -/
def skipWs : List Char → List Char
  | [] => []
  | c :: cs => if isWsChar c then skipWs cs else c :: cs

/-- Characters that may appear in a Python identifier (ASCII fragment). -/
def isIdentChar (c : Char) : Bool :=
  c.isAlphanum || c = '_'

/-- Decimal digits to a natural number. -/
def digitsToNat (ds : List Char) : Nat :=
  ds.foldl (fun a c => a * 10 + (c.toNat - '0'.toNat)) 0

/-- Python string-literal escapes: the recognized ones translate, an
unrecognized escape keeps the backslash (CPython behavior). -/
def pyEscape (e : Char) : String :=
  if e = 'n' then "\n"
  else if e = 't' then "\t"
  else if e = 'r' then "\r"
  else if e = '\\' then "\\"
  else if e = '\x27' then "\x27"
  else if e = '"' then "\""
  else if e = 'b' then "\x08"
  else if e = 'f' then "\x0c"
  else if e = '0' then "\x00"
  else "\\" ++ String.singleton e

/-- Body of a Python string literal opened with quote character `q`:
consume up to the closing quote, translating escapes. -/
def pyStringBody (q : Char) : Nat → List Char → Except String (String × List Char)
  | 0, _ => .error "fuel exhausted"
  | _ + 1, [] => .error "unterminated string literal"
  | fuel + 1, c :: cs =>
    if c = q then .ok ("", cs)
    else if c = '\\' then
      match cs with
      | [] => .error "unterminated string literal"
      | e :: cs2 =>
        match pyStringBody q fuel cs2 with
        | .ok (s, rest) => .ok (pyEscape e ++ s, rest)
        | .error m => .error m
    else
      match pyStringBody q fuel cs with
      | .ok (s, rest) => .ok (String.singleton c ++ s, rest)
      | .error m => .error m

/-- A Python integer literal, after an already-consumed optional sign.
Float syntax is outside the modelled fragment. -/
def pyNumber (neg : Bool) (cs : List Char) : Except String (PyVal × List Char) :=
  let ds := cs.takeWhile Char.isDigit
  let rest := cs.dropWhile Char.isDigit
  if ds.isEmpty then .error "invalid syntax"
  else
    match rest with
    | '.' :: _ => .error "float literal outside modelled fragment"
    | 'e' :: _ => .error "float literal outside modelled fragment"
    | 'E' :: _ => .error "float literal outside modelled fragment"
    | _ =>
      let n : Int := Int.ofNat (digitsToNat ds)
      .ok (.int (if neg then -n else n), rest)

mutual

/-- Recursive-descent model of the expression grammar accepted by
`ast.literal_eval` (restricted fragment).  A bare identifier other than
`True`/`False`/`None` is a `Name` node, which `literal_eval` rejects with
`ValueError("malformed node or string")`. -/
def pyParseVal : Nat → List Char → Except String (PyVal × List Char)
  | 0, _ => .error "fuel exhausted"
  | fuel + 1, cs =>
    match skipWs cs with
    | [] => .error "unexpected EOF while parsing"
    | c :: rest =>
      if c = '\x27' || c = '"' then
        match pyStringBody c fuel rest with
        | .ok (s, r) => .ok (.str s, r)
        | .error m => .error m
      else if c = '[' then pyParseListBody fuel rest
      else if c = '{' then pyParseDictBody fuel rest
      else if c = '-' then pyNumber true (skipWs rest)
      else if c = '+' then pyNumber false (skipWs rest)
      else if c.isDigit then pyNumber false (c :: rest)
      else if isIdentChar c then
        let name := String.mk ((c :: rest).takeWhile isIdentChar)
        let r := (c :: rest).dropWhile isIdentChar
        if name = "True" then .ok (.bool true, r)
        else if name = "False" then .ok (.bool false, r)
        else if name = "None" then .ok (.none_, r)
        else .error "malformed node or string"
      else .error "invalid syntax"

/-- After the opening `[` of a Python list literal. -/
def pyParseListBody : Nat → List Char → Except String (PyVal × List Char)
  | 0, _ => .error "fuel exhausted"
  | fuel + 1, cs =>
    match skipWs cs with
    | ']' :: rest => .ok (.list [], rest)
    | cs2 =>
      match pyListItems fuel cs2 with
      | .ok (xs, rest) => .ok (.list xs, rest)
      | .error m => .error m

/-- One or more list elements, separated by commas, with an optional
trailing comma, terminated by `]` (Python list grammar). -/
def pyListItems : Nat → List Char → Except String (List PyVal × List Char)
  | 0, _ => .error "fuel exhausted"
  | fuel + 1, cs =>
    match pyParseVal fuel cs with
    | .error m => .error m
    | .ok (v, rest) =>
      match skipWs rest with
      | ',' :: rest2 =>
        match skipWs rest2 with
        | ']' :: rest3 => .ok ([v], rest3)
        | rest3 =>
          match pyListItems fuel rest3 with
          | .ok (xs, r) => .ok (v :: xs, r)
          | .error m => .error m
      | ']' :: rest2 => .ok ([v], rest2)
      | _ => .error "invalid syntax"

/-- After the opening brace of a Python dict literal.  Set-literal syntax
is outside the modelled fragment. -/
def pyParseDictBody : Nat → List Char → Except String (PyVal × List Char)
  | 0, _ => .error "fuel exhausted"
  | fuel + 1, cs =>
    match skipWs cs with
    | '}' :: rest => .ok (.dict [], rest)
    | cs2 =>
      match pyDictItems fuel cs2 with
      | .ok (kvs, rest) => .ok (.dict kvs, rest)
      | .error m => .error m

/-- One or more `key: value` pairs, separated by commas, with an optional
trailing comma, terminated by the closing brace. -/
def pyDictItems : Nat → List Char → Except String (List (PyVal × PyVal) × List Char)
  | 0, _ => .error "fuel exhausted"
  | fuel + 1, cs =>
    match pyParseVal fuel cs with
    | .error m => .error m
    | .ok (k, rest) =>
      match skipWs rest with
      | ':' :: rest2 =>
        match pyParseVal fuel rest2 with
        | .error m => .error m
        | .ok (v, rest3) =>
          match skipWs rest3 with
          | ',' :: rest4 =>
            match skipWs rest4 with
            | '}' :: rest5 => .ok ([(k, v)], rest5)
            | rest5 =>
              match pyDictItems fuel rest5 with
              | .ok (kvs, r) => .ok ((k, v) :: kvs, r)
              | .error m => .error m
          | '}' :: rest4 => .ok ([(k, v)], rest4)
          | _ => .error "invalid syntax"
      | _ => .error "invalid syntax"

end

/-- Model of `ast.literal_eval`: parse a complete expression; anything but
trailing whitespace after the value is a syntax error. -/
def ast_literal_eval (s : String) : Except String PyVal :=
  let cs := s.toList
  match pyParseVal (2 * cs.length + 8) cs with
  | .error m => .error m
  | .ok (v, rest) =>
    if (skipWs rest).isEmpty then .ok v else .error "invalid syntax"

/-- JSON string-literal body after the opening double quote: strict JSON
escapes only (the `\uXXXX` form is outside the modelled fragment), raw
control characters rejected. -/
def jsonStringBody : Nat → List Char → Except String (String × List Char)
  | 0, _ => .error "fuel exhausted"
  | _ + 1, [] => .error "Unterminated string"
  | fuel + 1, c :: cs =>
    if c = '"' then .ok ("", cs)
    else if c = '\\' then
      match cs with
      | [] => .error "Unterminated string"
      | e :: cs2 =>
        let piece : Option String :=
          if e = '"' then some "\""
          else if e = '\\' then some "\\"
          else if e = '/' then some "/"
          else if e = 'n' then some "\n"
          else if e = 't' then some "\t"
          else if e = 'r' then some "\r"
          else if e = 'b' then some "\x08"
          else if e = 'f' then some "\x0c"
          else none
        match piece with
        | none => .error "Invalid escape"
        | some p =>
          match jsonStringBody fuel cs2 with
          | .ok (s, rest) => .ok (p ++ s, rest)
          | .error m => .error m
    else if c.toNat < 32 then .error "Invalid control character"
    else
      match jsonStringBody fuel cs with
      | .ok (s, rest) => .ok (String.singleton c ++ s, rest)
      | .error m => .error m

/-- A strict JSON integer: optional minus, digits, no leading zeros.
Fraction/exponent syntax is outside the modelled fragment. -/
def jsonNumber (neg : Bool) (cs : List Char) : Except String (JsonVal × List Char) :=
  let ds := cs.takeWhile Char.isDigit
  let rest := cs.dropWhile Char.isDigit
  if ds.isEmpty then .error "Expecting value"
  else if ds.length > 1 && ds.headD '0' = '0' then .error "Expecting value"
  else
    match rest with
    | '.' :: _ => .error "float literal outside modelled fragment"
    | 'e' :: _ => .error "float literal outside modelled fragment"
    | 'E' :: _ => .error "float literal outside modelled fragment"
    | _ =>
      let n : Int := Int.ofNat (digitsToNat ds)
      .ok (.int (if neg then -n else n), rest)

mutual

/-- Recursive-descent model of the strict JSON grammar used by
`json.loads` (restricted fragment). -/
def jsonParseVal : Nat → List Char → Except String (JsonVal × List Char)
  | 0, _ => .error "fuel exhausted"
  | fuel + 1, cs =>
    match skipWs cs with
    | [] => .error "Expecting value"
    | c :: rest =>
      if c = '"' then
        match jsonStringBody fuel rest with
        | .ok (s, r) => .ok (.str s, r)
        | .error m => .error m
      else if c = '[' then jsonParseArrBody fuel rest
      else if c = '{' then jsonParseObjBody fuel rest
      else if c = '-' then jsonNumber true rest
      else if c.isDigit then jsonNumber false (c :: rest)
      else if c.isAlpha then
        let name := String.mk ((c :: rest).takeWhile Char.isAlpha)
        let r := (c :: rest).dropWhile Char.isAlpha
        if name = "true" then .ok (.bool true, r)
        else if name = "false" then .ok (.bool false, r)
        else if name = "null" then .ok (.null, r)
        else .error "Expecting value"
      else .error "Expecting value"

/-- After the opening `[` of a JSON array. -/
def jsonParseArrBody : Nat → List Char → Except String (JsonVal × List Char)
  | 0, _ => .error "fuel exhausted"
  | fuel + 1, cs =>
    match skipWs cs with
    | ']' :: rest => .ok (.arr [], rest)
    | cs2 =>
      match jsonArrItems fuel cs2 with
      | .ok (xs, rest) => .ok (.arr xs, rest)
      | .error m => .error m

/-- One or more JSON array elements; strict JSON admits no trailing
comma. -/
def jsonArrItems : Nat → List Char → Except String (List JsonVal × List Char)
  | 0, _ => .error "fuel exhausted"
  | fuel + 1, cs =>
    match jsonParseVal fuel cs with
    | .error m => .error m
    | .ok (v, rest) =>
      match skipWs rest with
      | ',' :: rest2 =>
        match jsonArrItems fuel rest2 with
        | .ok (xs, r) => .ok (v :: xs, r)
        | .error m => .error m
      | ']' :: rest2 => .ok ([v], rest2)
      | _ => .error "Expecting delimiter"

/-- After the opening brace of a JSON object. -/
def jsonParseObjBody : Nat → List Char → Except String (JsonVal × List Char)
  | 0, _ => .error "fuel exhausted"
  | fuel + 1, cs =>
    match skipWs cs with
    | '}' :: rest => .ok (.obj [], rest)
    | cs2 =>
      match jsonObjItems fuel cs2 with
      | .ok (kvs, rest) => .ok (.obj kvs, rest)
      | .error m => .error m

/-- One or more JSON object members: double-quoted keys, colon, value. -/
def jsonObjItems : Nat → List Char → Except String (List (String × JsonVal) × List Char)
  | 0, _ => .error "fuel exhausted"
  | fuel + 1, cs =>
    match skipWs cs with
    | '"' :: rest =>
      match jsonStringBody fuel rest with
      | .error m => .error m
      | .ok (k, rest2) =>
        match skipWs rest2 with
        | ':' :: rest3 =>
          match jsonParseVal fuel rest3 with
          | .error m => .error m
          | .ok (v, rest4) =>
            match skipWs rest4 with
            | ',' :: rest5 =>
              match jsonObjItems fuel rest5 with
              | .ok (kvs, r) => .ok ((k, v) :: kvs, r)
              | .error m => .error m
            | '}' :: rest5 => .ok ([(k, v)], rest5)
            | _ => .error "Expecting delimiter"
        | _ => .error "Expecting colon delimiter"
    | _ => .error "Expecting property name enclosed in double quotes"

end

/-- Model of `json.loads`: parse one JSON value; anything but trailing
whitespace after it is an `Extra data` error. -/
def json_loads (s : String) : Except String JsonVal :=
  let cs := s.toList
  match jsonParseVal (2 * cs.length + 8) cs with
  | .error m => .error m
  | .ok (v, rest) =>
    if (skipWs rest).isEmpty then .ok v else .error "Extra data"

/-- Escaping performed by `json.dumps` on one string character (ASCII
fragment; `ensure_ascii` escaping of non-ASCII is outside the model). -/
def jsonEscapeChar (c : Char) : String :=
  if c = '"' then "\\\""
  else if c = '\\' then "\\\\"
  else if c = '\n' then "\\n"
  else if c = '\t' then "\\t"
  else if c = '\r' then "\\r"
  else if c = '\x08' then "\\b"
  else if c = '\x0c' then "\\f"
  else String.singleton c

/-- `json.dumps` rendering of a string value. -/
def json_dumps_str (s : String) : String :=
  "\"" ++ String.join (s.toList.map jsonEscapeChar) ++ "\""

/-- `json.dumps` key coercion: scalar keys become strings.  Container
keys raise `TypeError` in Python; they are outside the modelled fragment
(no Python literal with a container key evaluates successfully, since
containers are unhashable). -/
def json_dumps_key : PyVal → Option String
  | .str s => some (json_dumps_str s)
  | .int n => some ("\"" ++ toString n ++ "\"")
  | .bool true => some "\"true\""
  | .bool false => some "\"false\""
  | .none_ => some "\"null\""
  | _ => none

mutual

/-- Model of `json.dumps` with its default separators: a comma-space
between items and a colon-space after keys.  The `fuel` argument only
drives the recursion: every caller passes a bound larger than the value's
nesting depth, so the `fuel = 0` branch is never taken there. -/
def json_dumps_go : Nat → PyVal → String
  | 0, _ => ""
  | fuel + 1, v =>
    match v with
    | .none_ => "null"
    | .bool true => "true"
    | .bool false => "false"
    | .int n => toString n
    | .str s => json_dumps_str s
    | .list xs => "[" ++ String.intercalate ", " (json_dumps_list fuel xs) ++ "]"
    | .dict kvs => "\x7b" ++ String.intercalate ", " (json_dumps_pairs fuel kvs) ++ "\x7d"

/-- `json.dumps` over the elements of a list. -/
def json_dumps_list : Nat → List PyVal → List String
  | _, [] => []
  | 0, _ :: _ => []
  | fuel + 1, v :: vs => json_dumps_go fuel v :: json_dumps_list fuel vs

/-- `json.dumps` over the members of a dict. -/
def json_dumps_pairs : Nat → List (PyVal × PyVal) → List String
  | _, [] => []
  | 0, _ :: _ => []
  | fuel + 1, (k, v) :: kvs =>
    ((json_dumps_key k).getD "" ++ ": " ++ json_dumps_go fuel v) ::
      json_dumps_pairs fuel kvs

end

/-- The exceptions flowing through the `try` block of `is_valid_json`.
In CPython, `json.JSONDecodeError` is a subclass of `ValueError`. -/
inductive PyExc where
  | valueError : String → PyExc
  | jsonDecodeError : String → PyExc

/-- Message carried by the exception. -/
def PyExc.message : PyExc → String
  | .valueError m => m
  | .jsonDecodeError m => m

/-- The `isinstance(e, ValueError)` test used by exception dispatch:
true for `ValueError` itself and for its subclass `JSONDecodeError`. -/
def PyExc.isValueError : PyExc → Bool
  | .valueError _ => true
  | .jsonDecodeError _ => true

/-- Model of Python's `str.strip()`: remove leading and trailing
whitespace. -/
def py_strip (s : String) : String :=
  String.mk (((s.data.dropWhile isWsChar).reverse.dropWhile isWsChar).reverse)

/-- Model of `t.startswith("'")`. -/
def startsWithQuote (s : String) : Bool :=
  s.data.head? == some '\x27'

/-- Model of `t.endswith("'")`. -/
def endsWithQuote (s : String) : Bool :=
  s.data.getLast? == some '\x27'

/-- Model of the slice `t[1:-1]`: drop the first and last character. -/
def dropQuotePair (s : String) : String :=
  String.mk ((s.data.drop 1).dropLast)

/-- Embedding of `preprocess_json_string` (src/main.py lines 7-21):
strip whitespace, strip one pair of surrounding single quotes if present,
evaluate as a Python literal, re-serialize with `json.dumps`.  A literal
parse failure is re-raised as
`ValueError("Failed to process string: " + message)`. -/
def preprocess_json_string (json_str : String) : Except String String :=
  let t := py_strip json_str
  let t2 := if startsWithQuote t && endsWithQuote t then dropQuotePair t else t
  match ast_literal_eval t2 with
  | .ok python_obj => .ok (json_dumps_go (json_str.data.length + 2) python_obj)
  | .error e => .error ("Failed to process string: " ++ e)

/-- Exception dispatch of the `try` in `is_valid_json` (src/main.py lines
31-38): the clauses are tried in source order, so `except ValueError`
comes first and `except json.JSONDecodeError` second.  Because
`JSONDecodeError` is a subclass of `ValueError`, the first clause also
matches decode errors, leaving the second clause dead. -/
def handle_is_valid_json_exc (e : PyExc) : Bool × String :=
  if PyExc.isValueError e then
    (false, "Preprocessing error: " ++ PyExc.message e)
  else
    match e with
    | .jsonDecodeError m => (false, "JSON decode error: " ++ m)
    | .valueError m => (false, "Preprocessing error: " ++ m)

/-- Embedding of `is_valid_json` (src/main.py lines 23-38).  The argument
is an `Option String` because the row driver passes `row[field_name]`,
which is Python `None` when the row is shorter than the header; `if not
json_str` is true for both `None` and the empty string. -/
def is_valid_json (json_str : Option String) : Bool × String :=
  match json_str with
  | none => (false, "Empty string")
  | some s =>
    if s = "" then (false, "Empty string")
    else
      match preprocess_json_string s with
      | .error e => handle_is_valid_json_exc (.valueError e)
      | .ok processed_str =>
        match json_loads processed_str with
        | .error e => handle_is_valid_json_exc (.jsonDecodeError e)
        | .ok _ => (true, "")

/-- Model of `row[field_name]` for a `csv.DictReader` row: the header
gives the key order; a row shorter than the header yields Python `None`
(the default `restval`) for the missing fields. -/
def lookup_field (fieldnames : List String) (row : List String) (field_name : String) : Option String :=
  match fieldnames.indexOf? field_name with
  | some i => row.get? i
  | none => none

/-- How `print(f"Content: {json_str}")` renders the extracted value:
Python prints `None` for the null sentinel. -/
def pyShow (v : Option String) : String :=
  match v with
  | none => "None"
  | some s => s

/-- The separator line printed after each invalid row. -/
def sepLine : String := String.mk (List.replicate 50 '-')

/-- The four-line diagnostic block printed for an invalid row. -/
def diagnostic_block (line_num : Nat) (v : Option String) (error : String) : List String :=
  ["Line " ++ toString line_num ++ ": Invalid JSON",
   "Content: " ++ pyShow v,
   "Error: " ++ error,
   sepLine]

/-- The row loop of `validate_csv_json_field` (src/main.py lines 61-73):
returns the final `good_rows` count, the final `bad_rows` count, and the
diagnostic lines printed, in order. -/
def process_rows (fieldnames : List String) (field_name : String) (line_num : Nat) :
    List (List String) → Nat × Nat × List String
  | [] => (0, 0, [])
  | row :: rest =>
    let json_str := lookup_field fieldnames row field_name
    let res := is_valid_json json_str
    let acc := process_rows fieldnames field_name (line_num + 1) rest
    if res.1 then (acc.1 + 1, acc.2.1, acc.2.2)
    else (acc.1, acc.2.1 + 1, diagnostic_block line_num json_str res.2 ++ acc.2.2)

/-- Embedding of `validate_csv_json_field` (src/main.py lines 40-77) at
the row level: `contents` models the result of opening the file with
`csv.DictReader` (`none` means `FileNotFoundError`; `some` carries the
header field names and the data rows as cell lists; the byte-level CSV
dialect is abstracted away).  Returns the lines printed. -/
def validate_csv_json_field (csv_file : String)
    (contents : Option (List String × List (List String)))
    (field_name : String) : List String :=
  match contents with
  | none => ["Error: File \x27" ++ csv_file ++ "\x27 not found"]
  | some (fieldnames, rows) =>
    if field_name ∈ fieldnames then
      let r := process_rows fieldnames field_name 2 rows
      r.2.2 ++ ["Validation complete. " ++ toString r.1 ++ " valid rows, " ++
                toString r.2.1 ++ " invalid rows"]
    else
      ["Error: Field \x27" ++ field_name ++ "\x27 not found in CSV. Available fields: " ++
       String.intercalate ", " fieldnames]


/-- Helper for C7: over any row list, the good and bad counters sum to
the number of rows, because each row increments exactly one of them. -/
theorem process_rows_good_add_bad (fieldnames : List String) (field_name : String) :
    ∀ (line_num : Nat) (rows : List (List String)),
      (process_rows fieldnames field_name line_num rows).1 +
        (process_rows fieldnames field_name line_num rows).2.1 = rows.length := by
  intro line_num rows
  induction rows generalizing line_num with
  | nil => rfl
  | cons row rest ih =>
    simp only [process_rows, List.length_cons]
    cases h : (is_valid_json (lookup_field fieldnames row field_name)).1 <;>
      simp only [h, Bool.false_eq_true, if_true, if_false, ite_true, ite_false] <;>
      rw [← ih (line_num + 1)] <;> omega

/-- C6: classify applied to the empty string returns invalid with message
exactly "Empty string"; the early return fires before any normalization
or parsing. -/
theorem c6_empty_string_outcome : is_valid_json (some "") = (false, "Empty string") := rfl

/-- C1: the claim fails on the code.  `[true]` is valid strict JSON (the
strict parser accepts it), yet `is_valid_json` reports it invalid with a
preprocessing error, because Python's literal grammar spells booleans
`True`/`False` and rejects the bare name `true`. -/
theorem c1_strict_json_true_rejected :
    (json_loads "[true]").isOk = true ∧
    (is_valid_json (some "[true]")).1 = false ∧
    (is_valid_json (some "[true]")).2 =
      "Preprocessing error: Failed to process string: malformed node or string" :=
  ⟨rfl, rfl, rfl⟩

/-- C2: the claim fails on the code.  A `json.JSONDecodeError` raised by
the strict parse is dispatched by the `except ValueError` clause, which
precedes the `except json.JSONDecodeError` clause and matches the error
because `JSONDecodeError` is a subclass of `ValueError`; the outcome
therefore carries the "Preprocessing error:" prefix, not the "JSON decode
error:" prefix the claim requires. -/
theorem c2_decode_error_mislabeled :
    handle_is_valid_json_exc (PyExc.jsonDecodeError "Expecting value") =
      (false, "Preprocessing error: Expecting value") := rfl

/-- C3 counterexample: on the spec's own example `['a', 'b', 1, true]`
classify returns invalid (lowercase `true` is not a Python literal), so
the claim as stated is false. -/
theorem c3_lowercase_true_counterexample :
    (is_valid_json (some "[\x27a\x27, \x27b\x27, 1, true]")).1 = false := rfl

/-- C3 amended: with the Python boolean spelling, `['a', 'b', 1, True]`
classifies as valid and its normalized form is the JSON array rendered
with the default `json.dumps` separators (a space after each comma). -/
theorem c3_python_list_normalizes :
    is_valid_json (some "[\x27a\x27, \x27b\x27, 1, True]") = (true, "") ∧
    preprocess_json_string "[\x27a\x27, \x27b\x27, 1, True]" =
      .ok "[\"a\", \"b\", 1, true]" :=
  ⟨rfl, rfl⟩

/-- C4: the claim fails on the code.  `[false]` parses directly as strict
JSON, but normalization raises (Python's literal grammar rejects the bare
name `false`), so normalize-then-parse yields no value at all and cannot
be deep-equal to the direct parse. -/
theorem c4_normalization_loses_strict_json :
    (json_loads "[false]").isOk = true ∧
    (preprocess_json_string "[false]").isOk = false :=
  ⟨rfl, rfl⟩

/-- C5: any raw value whose stripped form is wrapped in single quotes and
whose quote-stripped interior fails the literal parse is reported with
the "Preprocessing error:" prefix (never "JSON decode error:"). -/
theorem c5_quoted_nonliteral_preprocessing_prefix (s m : String)
    (h1 : startsWithQuote (py_strip s) = true)
    (h2 : endsWithQuote (py_strip s) = true)
    (h3 : ast_literal_eval (dropQuotePair (py_strip s)) = .error m) :
    is_valid_json (some s) =
      (false, "Preprocessing error: " ++ ("Failed to process string: " ++ m)) := by
  have hs : ¬ s = "" := by
    intro h
    subst h
    exact absurd h1 (by decide)
  have hpre : preprocess_json_string s =
      .error ("Failed to process string: " ++ m) := by
    simp only [preprocess_json_string, h1, h2, Bool.and_self, if_true, h3]
  simp only [is_valid_json, if_neg hs, hpre, handle_is_valid_json_exc,
    PyExc.isValueError, if_true, PyExc.message]

/-- C5 witness: the value `'1 2'` is wrapped in single quotes, its
interior `1 2` is not a well-formed literal, and classify reports it as a
preprocessing error. -/
theorem c5_quoted_nonliteral_witness :
    is_valid_json (some "\x271 2\x27") =
      (false, "Preprocessing error: " ++ ("Failed to process string: " ++ "invalid syntax")) :=
  c5_quoted_nonliteral_preprocessing_prefix "\x271 2\x27" "invalid syntax"
    (by decide) (by decide) (by rfl)

/-- C7: every processed data row increments exactly one of the two
counters, so over any row list (hence over every prefix of a run) the
good and bad counts sum to the number of rows processed, and the final
line of the driver output is the summary reporting exactly those two
counts. -/
theorem c7_row_counts_invariant (fieldnames : List String) (field_name : String)
    (csv_file : String) (rows : List (List String)) (line_num : Nat)
    (hf : field_name ∈ fieldnames) :
    (process_rows fieldnames field_name line_num rows).1 +
      (process_rows fieldnames field_name line_num rows).2.1 = rows.length ∧
    (validate_csv_json_field csv_file (some (fieldnames, rows)) field_name).getLast? =
      some ("Validation complete. " ++
        toString (process_rows fieldnames field_name 2 rows).1 ++ " valid rows, " ++
        toString (process_rows fieldnames field_name 2 rows).2.1 ++ " invalid rows") := by
  refine ⟨process_rows_good_add_bad fieldnames field_name line_num rows, ?_⟩
  simp only [validate_csv_json_field, if_pos hf]
  exact List.getLast?_concat _

/-- C7 witness: a one-row run with the field present. -/
theorem c7_row_counts_witness :
    (process_rows ["id", "data"] "data" 2 [["1", "[1, 2]"]]).1 +
      (process_rows ["id", "data"] "data" 2 [["1", "[1, 2]"]]).2.1 =
      [["1", "[1, 2]"]].length ∧
    (validate_csv_json_field "rows.csv" (some (["id", "data"], [["1", "[1, 2]"]])) "data").getLast? =
      some ("Validation complete. " ++
        toString (process_rows ["id", "data"] "data" 2 [["1", "[1, 2]"]]).1 ++ " valid rows, " ++
        toString (process_rows ["id", "data"] "data" 2 [["1", "[1, 2]"]]).2.1 ++ " invalid rows") :=
  c7_row_counts_invariant ["id", "data"] "data" "rows.csv" [["1", "[1, 2]"]] 2 (by decide)

/-- C8: a missing file or a field name absent from the header makes the
driver return exactly one descriptive error line: no row diagnostics and
no summary line. -/
theorem c8_config_error_lines (csv_file field_name : String) (fieldnames : List String)
    (rows : List (List String)) (hf : field_name ∉ fieldnames) :
    validate_csv_json_field csv_file none field_name =
      ["Error: File \x27" ++ csv_file ++ "\x27 not found"] ∧
    validate_csv_json_field csv_file (some (fieldnames, rows)) field_name =
      ["Error: Field \x27" ++ field_name ++ "\x27 not found in CSV. Available fields: " ++
        String.intercalate ", " fieldnames] :=
  ⟨rfl, by simp only [validate_csv_json_field, if_neg hf]⟩

/-- C8 witness: a nonexistent path, and a header without the requested
field. -/
theorem c8_config_error_witness :
    validate_csv_json_field "missing.csv" none "data" =
      ["Error: File \x27" ++ "missing.csv" ++ "\x27 not found"] ∧
    validate_csv_json_field "missing.csv" (some (["id", "name"], [["1", "x"]])) "data" =
      ["Error: Field \x27" ++ "data" ++ "\x27 not found in CSV. Available fields: " ++
        String.intercalate ", " ["id", "name"]] :=
  c8_config_error_lines "missing.csv" "data" ["id", "name"] [["1", "x"]] (by decide)

/-- C9: when a data row is shorter than the header, the extracted value
is the `None` sentinel and classify treats it exactly like the empty
string: invalid with message "Empty string". -/
theorem c9_short_row_empty_string (fieldnames : List String) (field_name : String)
    (i : Nat) (row : List String)
    (hi : fieldnames.indexOf? field_name = some i) (hlen : row.length ≤ i) :
    lookup_field fieldnames row field_name = none ∧
    is_valid_json (lookup_field fieldnames row field_name) = (false, "Empty string") := by
  have h : lookup_field fieldnames row field_name = none := by
    simp only [lookup_field, hi]
    exact List.get?_eq_none.mpr hlen
  exact ⟨h, by rw [h]; rfl⟩

/-- C9 witness: header `id,data`, row with only the `id` cell. -/
theorem c9_short_row_witness :
    lookup_field ["id", "data"] ["7"] "data" = none ∧
    is_valid_json (lookup_field ["id", "data"] ["7"] "data") = (false, "Empty string") :=
  c9_short_row_empty_string ["id", "data"] "data" 1 ["7"] (by decide) (by decide)

/-- C10: the five-character input `'abc'` has exactly one leading and one
trailing single quote stripped, leaving the unquoted text `abc`, which
fails the literal parse; classify reports invalid with a "Preprocessing
error:" message. -/
theorem c10_single_quoted_bare_word :
    dropQuotePair (py_strip "\x27abc\x27") = "abc" ∧
    preprocess_json_string "\x27abc\x27" =
      .error "Failed to process string: malformed node or string" ∧
    is_valid_json (some "\x27abc\x27") =
      (false, "Preprocessing error: Failed to process string: malformed node or string") :=
  ⟨rfl, rfl, rfl⟩
